import Mathlib

/-!
Verification of the orchestration core of `aind-codeocean-utils`.

The repository contains two variants of the orchestrator:
`src/aind_codeocean_utils/codeocean_job.py` (called V1 below) and
`src/aind_codeocean_utils/codeocean_job_v2.py` (called V2 below).
Remote HTTP responses are modelled by `Response` (a status code plus the
JSON fields the orchestrator reads); the remote Code Ocean client is
modelled by `COClient`, a record of response functions.  Effectful Python
code is modelled in the `Tr` monad: a result that is either a raised
Python exception (`PyErr`) or a value, together with the ordered list of
remote API calls issued (`ApiCall`).  `time.sleep` consumes no state and
is recorded only where a claim is about sleeps (the `Ev` traces of the
poll loops).
-/

namespace AindCO

/-- Python exceptions raised by the orchestration code.  `nonTermination`
is the modelling artifact for a loop that exhausts its fuel; the theorems
below only use fuel values for which it is provably not reached. -/
inductive PyErr where
  | assertionError (msg : String)
  | keyError (key : String)
  | fileNotFoundError (msg : String)
  | connectionError (msg : String)
  | valueError (msg : String)
  | nameError (name : String)
  | attributeError (attr : String)
  | nonTermination
deriving DecidableEq, Repr

/-- The JSON fields of a remote response that the orchestrator reads:
`id`, `state` and `message`.  A field that is absent from the body is
`none` (reading it with `[...]` raises `KeyError`, reading it with
`.get` yields `None`). -/
structure RespBody where
  id : Option String := none
  state : Option String := none
  message : Option String := none
deriving DecidableEq, Repr

/-- A remote response: HTTP status code plus parsed body. -/
structure Response where
  status_code : Nat
  body : RespBody := {}
deriving DecidableEq, Repr

/-- Python renders `None` as the string "None" inside an f-string; any
other optional string is rendered as itself. -/
def pyStr : Option String → String
  | some s => s
  | none => "None"

/-- Rendering of a response body, used where the source interpolates the
whole parsed JSON into an error message. -/
def RespBody.render (b : RespBody) : String :=
  "id: " ++ pyStr b.id ++ ", state: " ++ pyStr b.state ++ ", message: " ++ pyStr b.message

/-- Substring test, modelling Python's `pat in s` for strings. -/
def strContains (s pat : String) : Bool :=
  decide (2 ≤ (s.splitOn pat).length)

/-- The data-level classification of `aind_data_schema` (external
collaborator of this repository): `DataLevel.RAW.value == "raw"` and
`DataLevel.DERIVED.value == "derived"`. -/
inductive DataLevel where
  | raw
  | derived
deriving DecidableEq, Repr

/-- String value of a data level, as in the external enum. -/
def DataLevel.value : DataLevel → String
  | .raw => "raw"
  | .derived => "derived"

/-- Python `dict.update` on an association list: an existing key is
overwritten in place, a new key is appended. -/
def dictUpdate (md : List (String × String)) (k v : String) : List (String × String) :=
  if md.any (fun p => p.1 = k) then
    md.map (fun p => if p.1 = k then (k, v) else p)
  else
    md ++ [(k, v)]

/-- Python's `list(set)` has unspecified order; the model returns the
canonical sorted enumeration of the set. -/
def setToList (s : Finset String) : List String :=
  s.sort (· ≤ ·)

/-- Tag set produced by `add_data_level_metadata` in
`codeocean_job_v2.py` lines 39-45: `set(tags or [])`, add the level's
value, and for the DERIVED level discard the RAW value. -/
def dataLevelTagSet (level : DataLevel) (tags : List String) : Finset String :=
  let t := tags.toFinset ∪ {level.value}
  if level = DataLevel.derived then t.erase DataLevel.raw.value else t

/-- Model of `add_data_level_metadata` (`codeocean_job_v2.py` lines
32-50): returns the new tag list (an enumeration of `dataLevelTagSet`)
and the metadata dict updated with the "data level" entry. -/
def add_data_level_metadata (level : DataLevel) (tags : List String)
    (custom_metadata : List (String × String)) :
    List String × List (String × String) :=
  (setToList (dataLevelTagSet level tags), dictUpdate custom_metadata "data level" level.value)

/-- Model of `build_processed_data_asset_name` (`codeocean_job_v2.py`
lines 26-29).  `capture_time` stands for
`datetime_to_name_string(datetime.now())`, the capture moment formatted
by the external `aind_data_schema` helper. -/
def build_processed_data_asset_name (input_data_asset_name process_name capture_time : String) :
    String :=
  input_data_asset_name ++ "_" ++ process_name ++ "_" ++ capture_time

/-- AWS source description of a create-data-asset request (external
`aind_codeocean_api` model).  `pfx` models the s3 path field of the
source. -/
structure SourcesAWS where
  bucket : String
  pfx : String
  keep_on_external_storage : Bool
  public : Bool
deriving DecidableEq, Repr

/-- Computation source description of a create-data-asset request. -/
structure SourcesComputation where
  id : String
deriving DecidableEq, Repr

/-- Source of a create-data-asset request: either AWS-backed or a
computation result. -/
structure Source where
  aws : Option SourcesAWS := none
  computation : Option SourcesComputation := none
deriving DecidableEq, Repr

/-- Create-data-asset request (external `aind_codeocean_api` model, the
fields the orchestrator reads and writes). -/
structure CreateDataAssetRequest where
  name : Option String := none
  mount : Option String := none
  tags : List String := []
  custom_metadata : List (String × String) := []
  source : Option Source := none
deriving DecidableEq, Repr

/-- A data asset attached to a run request: id plus mount. -/
structure ComputationDataAsset where
  id : String
  mount : Option String := none
deriving DecidableEq, Repr

/-- Run-capsule request (external `aind_codeocean_api` model). -/
structure RunCapsuleRequest where
  capsule_id : Option String := none
  pipeline_id : Option String := none
  data_assets : Option (List ComputationDataAsset) := none
  parameters : Option (List String) := none
  version : Option Nat := none
deriving DecidableEq, Repr

/-- One remote API call, with the request data the orchestrator sent. -/
inductive ApiCall where
  | createDataAsset (req : CreateDataAssetRequest)
  | getDataAsset (id : String)
  | updatePermissions (id : String) (everyone : String)
  | runCapsule (req : RunCapsuleRequest)
  | getComputation (id : String)
deriving DecidableEq, Repr

/-- The remote Code Ocean client, modelled as deterministic response
functions (one response per request; poll loops that need a
call-indexed response sequence take it as an explicit argument). -/
structure COClient where
  create_data_asset : CreateDataAssetRequest → Response
  get_data_asset : String → Response
  run_capsule : RunCapsuleRequest → Response
  get_computation : String → Response
  update_permissions : String → Response

/-- An effectful Python computation: either a raised exception or a
value, together with the ordered remote calls it issued. -/
def Tr (α : Type) : Type := Except PyErr α × List ApiCall

/-- Return without calls. -/
def Tr.pure (a : α) : Tr α := (Except.ok a, [])

/-- Sequencing: an exception short-circuits, traces concatenate. -/
def Tr.bind (x : Tr α) (f : α → Tr β) : Tr β :=
  match x with
  | (Except.error e, t) => (Except.error e, t)
  | (Except.ok a, t) => ((f a).1, t ++ (f a).2)

instance : Monad Tr where
  pure := Tr.pure
  bind := Tr.bind

/-- Issue one remote call and yield its response. -/
def Tr.call (c : ApiCall) (r : Response) : Tr Response := (Except.ok r, [c])

/-- Raise a Python exception. -/
def Tr.raise (e : PyErr) : Tr α := (Except.error e, [])

/-- Record calls already performed by a sub-computation. -/
def Tr.emit (cs : List ApiCall) : Tr Unit := (Except.ok (), cs)

/-- Inner while-loop of `wait_for_data_availability` (identical in
`codeocean_job.py` lines 98-105 and `codeocean_job_v2.py` lines
271-278): sleep, query, increment `num_of_checks`, stop when
`pause_interval * num_of_checks > timeout_seconds` or the status is 200.
`get k` is the response of the k-th `get_data_asset` call (0-indexed);
the fuel only bounds the recursion and is never reached when
`pause_interval > 0` and the caller passes `timeout_seconds + 2`. -/
def waitLoopAux (get : Nat → Response) (timeout_seconds pause_interval : Nat) :
    Nat → Nat → Response → Nat × Response
  | 0, num, resp => (num, resp)
  | fuel + 1, num, _resp =>
    let resp := get (num + 1)
    let num := num + 1
    if pause_interval * num > timeout_seconds ∨ resp.status_code = 200 then (num, resp)
    else waitLoopAux get timeout_seconds pause_interval fuel num resp

/-- Model of `wait_for_data_availability` (`codeocean_job.py` lines
67-106, `codeocean_job_v2.py` lines 239-279): initial sleep, first
query with `num_of_checks = 0`, then the while loop.  Returns the final
`num_of_checks` together with the last response; the total number of
`get_data_asset` calls performed is `num_of_checks + 1`. -/
def wait_for_data_availability (get : Nat → Response)
    (timeout_seconds : Nat := 300) (pause_interval : Nat := 10) : Nat × Response :=
  let resp := get 0
  if pause_interval * 0 > timeout_seconds ∨ resp.status_code = 200 then (0, resp)
  else waitLoopAux get timeout_seconds pause_interval (timeout_seconds + 2) 0 resp

/-- Events of a poll loop: a sleep of a given length, or the n-th status
check (1-indexed). -/
inductive Ev where
  | sleep (seconds : Nat)
  | check (idx : Nat)
deriving DecidableEq, Repr

/-- Exit condition of the V1 computation poll loop (`codeocean_job.py`
lines 192-195): observed state equals "completed", or a timeout is set
and `pause_interval * num_checks` has reached it. -/
def pollExit (st : String) (pause_interval num_checks : Nat)
    (timeout_seconds : Option Nat) : Bool :=
  decide (st = "completed") ||
    match timeout_seconds with
    | some t => decide (pause_interval * num_checks ≥ t)
    | none => false

/-- The V1 computation poll loop (`codeocean_job.py` lines 183-196):
increment `num_checks`, sleep `pause_interval`, read the computation
state, stop on `pollExit`.  `getComp n` is the response of the n-th
`get_computation` call (1-indexed).  Yields the final `num_checks`
together with the last response, and the sleep/check event trace. -/
def pollLoop (getComp : Nat → Response) (pause_interval : Nat)
    (timeout_seconds : Option Nat) :
    Nat → Nat → Except PyErr (Nat × Response) × List Ev
  | 0, _num => (Except.error PyErr.nonTermination, [])
  | fuel + 1, num =>
    let n := num + 1
    let r := getComp n
    let evs := [Ev.sleep pause_interval, Ev.check n]
    match r.body.state with
    | none => (Except.error (PyErr.keyError "state"), evs)
    | some st =>
      if pollExit st pause_interval n timeout_seconds then
        (Except.ok (n, r), evs)
      else
        let rest := pollLoop getComp pause_interval timeout_seconds fuel n
        (rest.1, evs ++ rest.2)

namespace V2

/-- Settings for capturing results (`codeocean_job_v2.py` lines 53-63). -/
structure CaptureResultConfig where
  process_name : Option String := some "processed"
  input_data_asset_name : Option String := none
deriving DecidableEq, Repr

/-- The capture configuration of the V2 job is a Union of
`CaptureResultConfig` and `CreateDataAssetRequest`. -/
inductive CaptureConfig where
  | captureResultConfig (c : CaptureResultConfig)
  | createDataAssetRequest (r : CreateDataAssetRequest)
deriving DecidableEq, Repr

/-- The V2 `CodeOceanJob` (`codeocean_job_v2.py` lines 66-87), with the
constructor defaults. -/
structure CodeOceanJob where
  co_client : COClient
  register_data_config : Option CreateDataAssetRequest := none
  process_config : Option RunCapsuleRequest := none
  capture_result_config : Option CaptureConfig := none
  assets_viewable_to_everyone : Bool := true
  process_poll_interval_seconds : Nat := 300
  process_timeout_seconds : Option Nat := none
  add_data_level_tags : Bool := true

/-- Error message of `codeocean_job_v2.py` lines 311-316 (f-string with
the asset name, the status code and the parsed response). -/
def registrationErrMsg (name : Option String) (code : Nat) (b : RespBody) : String :=
  "Something went wrong registering \x27" ++ pyStr name ++ "\x27. " ++
    "Response Status Code: " ++ toString code ++ ". Response Message: " ++ RespBody.render b

/-- Error message of `codeocean_job_v2.py` lines 157-161. -/
def runErrMsg (code : Nat) (b : RespBody) : String :=
  "Something went wrong running the capsule or pipeline. " ++
    "Response Status Code: " ++ toString code ++ ". Response Message: " ++ RespBody.render b

/-- Apply `add_data_level_metadata` to a request's tags and metadata if
`add_data_level_tags` is set (`codeocean_job_v2.py` lines 121-128 and
222-229), leaving the request unchanged otherwise. -/
def applyDataLevel (add_tags : Bool) (level : DataLevel) (req : CreateDataAssetRequest) :
    CreateDataAssetRequest :=
  if add_tags then
    let tm := add_data_level_metadata level req.tags req.custom_metadata
    { req with tags := tm.1, custom_metadata := tm.2 }
  else req

/-- Model of `CodeOceanJob.create_data_asset_and_update_permissions`
(`codeocean_job_v2.py` lines 281-336): assert that an AWS-backed source
keeps the data on external storage, submit the creation, raise
`KeyError` when the response lacks an id, and if
`assets_viewable_to_everyone` wait for availability (defaults 300/10)
and grant "viewer" to everyone. -/
def create_data_asset_and_update_permissions (j : CodeOceanJob)
    (request : CreateDataAssetRequest) : Tr Response :=
  match request.source with
  | none => Tr.raise (PyErr.attributeError "aws")
  | some src =>
    let assertOk : Tr Unit :=
      match src.aws with
      | some a =>
        if a.keep_on_external_storage then Tr.pure ()
        else Tr.raise (PyErr.assertionError "AWS data assets must be kept on external storage.")
      | none => Tr.pure ()
    Tr.bind assertOk fun _ =>
    Tr.bind (Tr.call (ApiCall.createDataAsset request) (j.co_client.create_data_asset request))
      fun resp =>
    match resp.body.id with
    | none => Tr.raise (PyErr.keyError (registrationErrMsg request.name resp.status_code resp.body))
    | some da_id =>
      if j.assets_viewable_to_everyone then
        let w := wait_for_data_availability (fun _ => j.co_client.get_data_asset da_id) 300 10
        Tr.bind (Tr.emit (List.replicate (w.1 + 1) (ApiCall.getDataAsset da_id))) fun _ =>
        if w.2.status_code ≠ 200 then
          Tr.raise (PyErr.fileNotFoundError ("Unable to find: " ++ da_id))
        else
          Tr.bind (Tr.call (ApiCall.updatePermissions da_id "viewer")
            (j.co_client.update_permissions da_id)) fun _ =>
          Tr.pure resp
      else Tr.pure resp

/-- Model of `CodeOceanJob.register_data` (`codeocean_job_v2.py` lines
118-134): optionally add the RAW data-level tags, then create the asset
and update permissions. -/
def register_data (j : CodeOceanJob) (request : CreateDataAssetRequest) : Tr Response :=
  create_data_asset_and_update_permissions j (applyDataLevel j.add_data_level_tags DataLevel.raw request)

/-- Model of `CodeOceanJob.check_data_assets` (`codeocean_job_v2.py`
lines 338-367): fetch every referenced asset in order; 404 raises
`FileNotFoundError` naming the id, any other non-200 raises
`ConnectionError` naming the id. -/
def check_data_assets (j : CodeOceanJob) : List ComputationDataAsset → Tr Unit
  | [] => Tr.pure ()
  | da :: rest =>
    Tr.bind (Tr.call (ApiCall.getDataAsset da.id) (j.co_client.get_data_asset da.id)) fun r =>
    if r.status_code = 404 then
      Tr.raise (PyErr.fileNotFoundError ("Unable to find: " ++ da.id))
    else if r.status_code ≠ 200 then
      Tr.raise (PyErr.connectionError ("There was an issue retrieving: " ++ da.id))
    else check_data_assets j rest

/-- Names bound in the scope of `CodeOceanJob.process_data` at the point
where the poll-loop exit condition is evaluated: the module-level
bindings of `codeocean_job_v2.py` plus the parameters and local
variables of `process_data` (Python builtins also do not bind
`run_capsule_config`). -/
def processDataScopeNames : List String :=
  ["logging", "time", "datetime", "List", "Optional", "Tuple", "Union",
   "requests", "CodeOceanClient", "ComputationDataAsset", "RunCapsuleRequest",
   "CreateDataAssetRequest", "Source", "Sources", "DataLevel",
   "datetime_to_name_string", "BaseModel", "Field", "logger",
   "build_processed_data_asset_name", "add_data_level_metadata",
   "CaptureResultConfig", "CodeOceanJob",
   "self", "register_data_response", "input_data_asset_id",
   "input_data_asset_mount", "run_capsule_response",
   "run_capsule_response_json", "computation_id", "executing", "num_checks",
   "computation_response", "curr_computation_state"]

/-- Python name lookup: a name not bound in any enclosing scope raises
`NameError`. -/
def pyLookupName (scope : List String) (name : String) : Except PyErr Unit :=
  if name ∈ scope then Except.ok () else Except.error (PyErr.nameError name)

/-- Exit condition of the V2 poll loop (`codeocean_job_v2.py` lines
177-184), with Python's short-circuit `or`/`and`: the left operand
compares the observed state with "completed"; the right operand begins
by evaluating the name `run_capsule_config`, which must be looked up in
the scope of `process_data`.  Were the name bound, the right operand
would compute the documented timeout test from the job's poll interval
and timeout; the lookup decides whether that point is ever reached. -/
def loopExitCond (st : String) (num_checks poll_interval : Nat)
    (timeout : Option Nat) : Except PyErr Bool :=
  if st = "completed" then Except.ok true
  else
    match pyLookupName processDataScopeNames "run_capsule_config" with
    | Except.error e => Except.error e
    | Except.ok _ =>
      Except.ok (match timeout with
        | none => false
        | some t => decide (poll_interval * num_checks ≥ t))

/-- The V2 computation poll loop (`codeocean_job_v2.py` lines 166-185):
increment `num_checks`, sleep, read the computation state, evaluate
`loopExitCond`.  `getComp n` is the response of the n-th
`get_computation` call (1-indexed).  Yields the final `num_checks` with
the last response (or the raised exception) and the number of
`get_computation` calls performed. -/
def processLoopV2 (getComp : Nat → Response) (poll_interval : Nat)
    (timeout : Option Nat) : Nat → Nat → Except PyErr (Nat × Response) × Nat
  | 0, _num => (Except.error PyErr.nonTermination, 0)
  | fuel + 1, num =>
    let n := num + 1
    let r := getComp n
    match r.body.state with
    | none => (Except.error (PyErr.keyError "state"), 1)
    | some st =>
      match loopExitCond st n poll_interval timeout with
      | Except.error e => (Except.error e, 1)
      | Except.ok true => (Except.ok (n, r), 1)
      | Except.ok false =>
        let rest := processLoopV2 getComp poll_interval timeout fuel n
        (rest.1, 1 + rest.2)

/-- Model of `CodeOceanJob.process_data` (`codeocean_job_v2.py` lines
136-186): normalise `data_assets` to a list, append the registered
asset's id with the register config's mount when a register response is
given, check the assets, submit the run (raising `KeyError` when the
response lacks an id), and when the poll interval is truthy run the
poll loop.  The run-capsule response is returned, not the poll's. -/
def process_data (j : CodeOceanJob) (register_data_response : Option Response)
    (fuel : Nat) : Tr Response :=
  match j.process_config with
  | none => Tr.raise (PyErr.attributeError "data_assets")
  | some pc =>
    let assets0 := pc.data_assets.getD []
    let withReg : Tr (List ComputationDataAsset) :=
      match register_data_response with
      | none => Tr.pure assets0
      | some rr =>
        match rr.body.id with
        | none => Tr.raise (PyErr.keyError "id")
        | some rid =>
          match j.register_data_config with
          | none => Tr.raise (PyErr.attributeError "mount")
          | some rc => Tr.pure (assets0 ++ [{ id := rid, mount := rc.mount }])
    Tr.bind withReg fun assets =>
    Tr.bind (check_data_assets j assets) fun _ =>
    let req := { pc with data_assets := some assets }
    Tr.bind (Tr.call (ApiCall.runCapsule req) (j.co_client.run_capsule req)) fun r =>
    match r.body.id with
    | none => Tr.raise (PyErr.keyError (runErrMsg r.status_code r.body))
    | some cid =>
      if j.process_poll_interval_seconds ≠ 0 then
        let pl := processLoopV2 (fun _ => j.co_client.get_computation cid)
          j.process_poll_interval_seconds j.process_timeout_seconds fuel 0
        Tr.bind (Tr.emit (List.replicate pl.2 (ApiCall.getComputation cid))) fun _ =>
        match pl.1 with
        | Except.error e => Tr.raise e
        | Except.ok _ => Tr.pure r
      else Tr.pure r

/-- Names bound in the scope of `CodeOceanJob.capture_result` at line
194 of `codeocean_job_v2.py`: the module-level bindings plus the
parameters and (already assigned) locals of `capture_result`. -/
def captureResultScopeNames : List String :=
  ["logging", "time", "datetime", "List", "Optional", "Tuple", "Union",
   "requests", "CodeOceanClient", "ComputationDataAsset", "RunCapsuleRequest",
   "CreateDataAssetRequest", "Source", "Sources", "DataLevel",
   "datetime_to_name_string", "BaseModel", "Field", "logger",
   "build_processed_data_asset_name", "add_data_level_metadata",
   "CaptureResultConfig", "CodeOceanJob",
   "self", "process_response", "computation_id"]

/-- Model of `CodeOceanJob.capture_result` (`codeocean_job_v2.py` lines
188-237).  Line 194 assigns from the bare name `capture_result_config`
(not `self.capture_result_config`), so the `CreateDataAssetRequest`
branch performs a name lookup that decides whether the explicit request
is ever used.  The `CaptureResultConfig` branch resolves the asset name
from the config's `input_data_asset_name` or the register config's
name, builds `{name}_{process}_{capture_time}`, and uses it for both
name and mount.  The computation source, the DERIVED data level tags,
and the shared creation primitive follow. -/
def capture_result (j : CodeOceanJob) (capture_time : String)
    (process_response : Option Response) : Tr Response :=
  match process_response with
  | none => Tr.raise (PyErr.attributeError "json")
  | some pr =>
    match pr.body.id with
    | none => Tr.raise (PyErr.keyError "id")
    | some cid =>
      let mkReq : Tr CreateDataAssetRequest :=
        match j.capture_result_config with
        | some (CaptureConfig.createDataAssetRequest r) =>
          match pyLookupName captureResultScopeNames "capture_result_config" with
          | Except.error e => Tr.raise e
          | Except.ok _ => Tr.pure r
        | some (CaptureConfig.captureResultConfig cc) =>
          let base : CreateDataAssetRequest :=
            { name := none, mount := none, tags := [], custom_metadata := [] }
          let resolved : Except PyErr String :=
            match cc.input_data_asset_name with
            | some n => Except.ok n
            | none =>
              match j.register_data_config with
              | some rc => Except.ok (pyStr rc.name)
              | none => Except.error (PyErr.valueError "could not determine captured asset name")
          match resolved with
          | Except.error e => Tr.raise e
          | Except.ok an =>
            let nm := build_processed_data_asset_name an (pyStr cc.process_name) capture_time
            Tr.pure { base with name := some nm, mount := some nm }
        | none =>
          -- both isinstance checks fail and line 218 reads the never
          -- assigned local `create_data_asset_request`
          Tr.raise (PyErr.nameError "create_data_asset_request")
      Tr.bind mkReq fun req0 =>
      let req1 := { req0 with source := some { computation := some { id := cid } } }
      let req2 := applyDataLevel j.add_data_level_tags DataLevel.derived req1
      create_data_asset_and_update_permissions j req2

/-- Model of `CodeOceanJob.run_job` (`codeocean_job_v2.py` lines
89-116): assert that a capture config comes with a process config, then
run the configured register, process and capture stages in order,
threading the register response into the process stage and the process
response into the capture stage. -/
def run_job (j : CodeOceanJob) (capture_time : String) (fuel : Nat) :
    Tr (Option Response × Option Response × Option Response) :=
  if j.capture_result_config.isSome ∧ j.process_config.isNone then
    Tr.raise (PyErr.assertionError "process_config must be provided to capture results")
  else
    Tr.bind
      (match j.register_data_config with
       | some rc => Tr.bind (register_data j rc) fun r => Tr.pure (some r)
       | none => Tr.pure none) fun reg =>
    Tr.bind
      (if j.process_config.isSome then
        Tr.bind (process_data j reg fuel) fun r => Tr.pure (some r)
       else Tr.pure none) fun proc =>
    Tr.bind
      (if j.capture_result_config.isSome then
        Tr.bind (capture_result j capture_time proc) fun r => Tr.pure (some r)
       else Tr.pure none) fun cap =>
    Tr.pure (reg, proc, cap)

end V2

namespace V1

/-- The `get_computation` calls corresponding to the check events of a
poll-loop event trace. -/
def checkCalls (cid : String) (evs : List Ev) : List ApiCall :=
  (evs.filter fun e => match e with | Ev.check _ => true | _ => false).map
    (fun _ => ApiCall.getComputation cid)

/-- Existence check of `CodeOceanJob.run_capsule` (`codeocean_job.py`
lines 160-169): fetch every referenced asset in order and raise
`FileNotFoundError` naming the id when the response body has a
`message` field containing "not found".  No other response is treated
as a failure. -/
def checkAssetsLoop (getAsset : String → Response) :
    List (String × String) → Tr Unit
  | [] => Tr.pure ()
  | (id, _mount) :: rest =>
    Tr.bind (Tr.call (ApiCall.getDataAsset id) (getAsset id)) fun r =>
    match r.body.message with
    | some m =>
      if strContains m "not found" then
        Tr.raise (PyErr.fileNotFoundError ("Unable to find: " ++ id))
      else checkAssetsLoop getAsset rest
    | none => checkAssetsLoop getAsset rest

/-- The run request `run_capsule` builds from its arguments
(`codeocean_job.py` lines 171-177). -/
def runRequest (capsule_id pipeline_id : Option String)
    (data_assets : Option (List (String × String)))
    (run_parameters : Option (List String)) (capsule_version : Option Nat) :
    RunCapsuleRequest :=
  { capsule_id := capsule_id, pipeline_id := pipeline_id,
    data_assets := data_assets.map (fun l => l.map fun p => { id := p.1, mount := some p.2 }),
    parameters := run_parameters, version := capsule_version }

/-- Model of `CodeOceanJob.run_capsule` (`codeocean_job.py` lines
108-197).  `getAsset` gives the existence-check responses, `runResp`
the run-submission response per request, and `getComp n` the n-th
computation poll response.  After the optional existence check the run
request is built and submitted, the computation id is read from the
submission response (`KeyError` when absent), and when `pause_interval`
is truthy the poll loop runs; the function returns the submission
response. -/
def run_capsule (getAsset : String → Response) (runResp : RunCapsuleRequest → Response)
    (getComp : Nat → Response)
    (capsule_id pipeline_id : Option String)
    (data_assets : Option (List (String × String)))
    (run_parameters : Option (List String))
    (pause_interval : Option Nat) (capsule_version : Option Nat)
    (timeout_seconds : Option Nat) (fuel : Nat) : Tr Response :=
  Tr.bind
    (match data_assets with
     | some l => checkAssetsLoop getAsset l
     | none => Tr.pure ()) fun _ =>
  let req := runRequest capsule_id pipeline_id data_assets run_parameters capsule_version
  Tr.bind (Tr.call (ApiCall.runCapsule req) (runResp req)) fun r =>
  match r.body.id with
  | none => Tr.raise (PyErr.keyError "id")
  | some cid =>
    match pause_interval with
    | some p =>
      if p ≠ 0 then
        let pl := pollLoop getComp p timeout_seconds fuel 0
        Tr.bind (Tr.emit (checkCalls cid pl.2)) fun _ =>
        match pl.1 with
        | Except.error e => Tr.raise e
        | Except.ok _ => Tr.pure r
      else Tr.pure r
    | none => Tr.pure r

/-- Model of `CodeOceanJob.register_data_and_update_permissions`
(`codeocean_job.py` lines 199-283): build the create request from the
AWS source description and submit it; when `viewable_to_everyone`, read
the id from the response (a bare `KeyError` when absent), wait for
availability (defaults 300/10, `FileNotFoundError` on a non-200 final
status) and grant "viewer" to everyone.  The creation response is
returned; no check of the creation response precedes the
`viewable_to_everyone` block. -/
def register_data_and_update_permissions (client : COClient)
    (asset_name mount bucket pfx : String)
    (public : Bool := false) (keep_on_external_storage : Bool := true)
    (tags : List String := []) (custom_metadata : List (String × String) := [])
    (viewable_to_everyone : Bool := false) : Tr Response :=
  let aws_source : SourcesAWS :=
    { bucket := bucket, pfx := pfx,
      keep_on_external_storage := keep_on_external_storage, public := public }
  let req : CreateDataAssetRequest :=
    { name := some asset_name, tags := tags, mount := some mount,
      source := some { aws := some aws_source },
      custom_metadata := custom_metadata }
  Tr.bind (Tr.call (ApiCall.createDataAsset req) (client.create_data_asset req)) fun resp =>
  if viewable_to_everyone then
    match resp.body.id with
    | none => Tr.raise (PyErr.keyError "id")
    | some da_id =>
      let w := wait_for_data_availability (fun _ => client.get_data_asset da_id) 300 10
      Tr.bind (Tr.emit (List.replicate (w.1 + 1) (ApiCall.getDataAsset da_id))) fun _ =>
      if w.2.status_code ≠ 200 then
        Tr.raise (PyErr.fileNotFoundError ("Unable to find: " ++ da_id))
      else
        Tr.bind (Tr.call (ApiCall.updatePermissions da_id "viewer")
          (client.update_permissions da_id)) fun _ =>
        Tr.pure resp
  else Tr.pure resp

end V1

/-! Fixtures: concrete clients and responses used by the closed
counterexample and witness theorems below. -/

/-- A 200 response carrying a data-asset id. -/
def respAsset : Response := { status_code := 200, body := { id := some "abc-123" } }

/-- A 204 response with an empty body. -/
def resp204 : Response := { status_code := 204 }

/-- A 500 response with an empty body (no id, state or message). -/
def resp500 : Response := { status_code := 500 }

/-- A run-submission response: computation id present, state
"initializing". -/
def subResp : Response :=
  { status_code := 200, body := { id := some "comp-abc-123", state := some "initializing" } }

/-- A computation response with state "running". -/
def compRunning : Response :=
  { status_code := 200, body := { id := some "comp-abc-123", state := some "running" } }

/-- A computation response with state "completed". -/
def compCompleted : Response :=
  { status_code := 200, body := { id := some "comp-abc-123", state := some "completed" } }

/-- Computation polls: "running" on the first call, "completed" on the
second. -/
def pollsCompletedAt2 : Nat → Response :=
  fun n => if n = 2 then compCompleted else compRunning

/-- A client whose calls all succeed: creations return an id (a data
asset id for source uploads, a result id for computation captures),
fetches return 200, runs return a computation id, computations report
"completed". -/
def okClient : COClient where
  create_data_asset := fun req =>
    match req.source with
    | some src =>
      match src.computation with
      | some _ => { status_code := 200, body := { id := some "res-456" } }
      | none => respAsset
    | none => respAsset
  get_data_asset := fun _ => respAsset
  run_capsule := fun _ => subResp
  get_computation := fun _ => compCompleted
  update_permissions := fun _ => resp204

/-- Client `okClient` with an id-less failing create response. -/
def noIdClient : COClient :=
  { okClient with create_data_asset := fun _ => resp500 }

/-- The run request built by the V1 `run_capsule` counterexample for C5. -/
def c5req : RunCapsuleRequest :=
  { capsule_id := some "123-abc",
    data_assets := some [{ id := "999888", mount := some "some_mount" }] }

/-- The run request `process_data` submits after augmenting the
configured `data_assets` with the registered asset's id and the
register config's mount (`codeocean_job_v2.py` lines 139-153). -/
def V2.augmentedRunRequest (pc : RunCapsuleRequest) (rid : String) (mount : Option String) :
    RunCapsuleRequest :=
  { pc with data_assets := some (pc.data_assets.getD [] ++ [{ id := rid, mount := mount }]) }

/-- The create request `capture_result` submits in its
`CaptureResultConfig` branch (`codeocean_job_v2.py` lines 195-229):
resolved name used for name and mount, computation source, DERIVED
data-level tags. -/
def V2.captureRequest (addTags : Bool) (nm cid : String) : CreateDataAssetRequest :=
  V2.applyDataLevel addTags DataLevel.derived
    { name := some nm, mount := some nm, tags := [], custom_metadata := [],
      source := some { computation := some { id := cid } } }

/-- An AWS source kept on external storage. -/
def awsKeepTrue : SourcesAWS :=
  { bucket := "bkt", pfx := "some-path",
    keep_on_external_storage := true, public := false }

/-- An AWS source not kept on external storage. -/
def awsKeepFalse : SourcesAWS :=
  { bucket := "bkt", pfx := "some-path",
    keep_on_external_storage := false, public := false }

/-- Register config used by the C1 witness. -/
def wRegisterConfig : CreateDataAssetRequest :=
  { name := some "ecephys_123", mount := some "ecephys",
    source := some { aws := some awsKeepTrue } }

/-- Run config used by the C1 witness. -/
def wRunConfig : RunCapsuleRequest := { capsule_id := some "cap-1" }

/-- The full V2 job used by the C1 witness: register, run and capture
all configured against `okClient`. -/
def wJob : V2.CodeOceanJob :=
  { co_client := okClient, register_data_config := some wRegisterConfig,
    process_config := some wRunConfig,
    capture_result_config := some (V2.CaptureConfig.captureResultConfig {}) }

/-- Client `okClient` except that fetching the asset "missing" returns 404 and
fetching "bad" returns 500. -/
def lookupClient : COClient :=
  { okClient with get_data_asset := fun i =>
      if i = "missing" then { status_code := 404 }
      else if i = "bad" then resp500
      else respAsset }

/-- An explicit capture request, used to exercise the
`CreateDataAssetRequest` branch of `capture_result`. -/
def explicitCaptureReq : CreateDataAssetRequest :=
  { name := some "explicit_name", mount := some "explicit_mount" }

/-- A registration request whose AWS source does not keep the data on
external storage. -/
def keepFalseReq : CreateDataAssetRequest :=
  { name := some "x", mount := some "m", source := some { aws := some awsKeepFalse } }

/-- A run config referencing the asset "missing". -/
def pcMissing : RunCapsuleRequest :=
  { capsule_id := some "cap-1", data_assets := some [{ id := "missing" }] }

/-- A run config referencing the asset "bad". -/
def pcBad : RunCapsuleRequest :=
  { capsule_id := some "cap-1", data_assets := some [{ id := "bad" }] }

/-- A V2 job whose run config references the missing asset. -/
def jMissing : V2.CodeOceanJob :=
  { co_client := lookupClient, process_config := some pcMissing }

/-- A V2 job whose run config references the asset with a failing
fetch. -/
def jBad : V2.CodeOceanJob :=
  { co_client := lookupClient, process_config := some pcBad }

/-- A V2 job with only a client configured. -/
def jPlain : V2.CodeOceanJob := { co_client := okClient }

/-- A V2 job whose client returns id-less create responses. -/
def jNoId : V2.CodeOceanJob := { co_client := noIdClient }

/-- Job `wJob` with the capture config replaced by an explicit
`CreateDataAssetRequest`. -/
def j8Explicit : V2.CodeOceanJob :=
  let cfg := V2.CaptureConfig.createDataAssetRequest explicitCaptureReq
  { wJob with capture_result_config := some cfg }

/-- Job `wJob` without a register config. -/
def j8NoRegister : V2.CodeOceanJob :=
  { wJob with register_data_config := none }

/-! Reduction lemmas for the `Tr` monad. -/

/-- Binding a successful computation concatenates traces. -/
theorem Tr.bind_ok {α β : Type} (a : α) (t : List ApiCall) (f : α → Tr β) :
    Tr.bind (Except.ok a, t) f = ((f a).1, t ++ (f a).2) := rfl

/-- Binding a raised exception short-circuits. -/
theorem Tr.bind_err {α β : Type} (e : PyErr) (t : List ApiCall) (f : α → Tr β) :
    Tr.bind (Except.error e, t) f = (Except.error e, t) := rfl


/-- After an update, some entry carries the updated key. -/
theorem dictUpdate_any (md : List (String × String)) (k v : String) :
    (dictUpdate md k v).any (fun p => decide (p.1 = k)) = true := by
  unfold dictUpdate
  split_ifs with h1
  · rw [List.any_eq_true] at h1 ⊢
    obtain ⟨p, hp, hpk⟩ := h1
    exact ⟨(k, v), List.mem_map.mpr ⟨p, hp, by simp [of_decide_eq_true hpk]⟩, by simp⟩
  · rw [List.any_eq_true]
    exact ⟨(k, v), by simp, by simp⟩

/-- After an update, every entry carrying the updated key holds the
updated value. -/
theorem dictUpdate_key_val (md : List (String × String)) (k v : String) :
    ∀ p ∈ dictUpdate md k v, p.1 = k → p = (k, v) := by
  intro p hp hpk
  unfold dictUpdate at hp
  split_ifs at hp with h1
  · obtain ⟨q, hq, himg⟩ := List.mem_map.mp hp
    by_cases hqk : q.1 = k
    · rw [if_pos hqk] at himg
      exact himg.symm
    · rw [if_neg hqk] at himg
      exact absurd (himg ▸ hpk) hqk
  · rcases List.mem_append.mp hp with h | h
    · rw [List.any_eq_true] at h1
      push_neg at h1
      exact absurd (decide_eq_true hpk) (by simpa using h1 p h)
    · simpa using h

/-- Updating a list in which the key already maps to the value is the
identity. -/
theorem dictUpdate_self (L : List (String × String)) (k v : String)
    (ha : L.any (fun p => decide (p.1 = k)) = true)
    (hb : ∀ p ∈ L, p.1 = k → p = (k, v)) :
    dictUpdate L k v = L := by
  unfold dictUpdate
  rw [if_pos ha]
  conv_rhs => rw [← List.map_id L]
  refine List.map_congr_left fun p hp => ?_
  by_cases hpk : p.1 = k
  · rw [if_pos hpk]
    exact (hb p hp hpk).symm
  · simp [hpk]

/-- Updating a key twice with the same value is the same as updating it
once. -/
theorem dictUpdate_idem (md : List (String × String)) (k v : String) :
    dictUpdate (dictUpdate md k v) k v = dictUpdate md k v :=
  dictUpdate_self _ k v (dictUpdate_any md k v) (dictUpdate_key_val md k v)


/-- The DERIVED tag set spelled out: union with the derived value, then
erase the raw value. -/
theorem dataLevelTagSet_derived_eq (tags : List String) :
    dataLevelTagSet DataLevel.derived tags =
      (tags.toFinset ∪ {"derived"}).erase "raw" := rfl

/-- The derived classification tag is always in the derived tag set. -/
theorem mem_derived_dataLevelTagSet (tags : List String) :
    "derived" ∈ dataLevelTagSet DataLevel.derived tags := by
  rw [dataLevelTagSet_derived_eq]
  exact Finset.mem_erase.mpr
    ⟨by decide, Finset.mem_union_right _ (Finset.mem_singleton_self _)⟩

/-- The raw classification tag is never in the derived tag set. -/
theorem not_mem_raw_dataLevelTagSet (tags : List String) :
    "raw" ∉ dataLevelTagSet DataLevel.derived tags := by
  rw [dataLevelTagSet_derived_eq]
  exact Finset.not_mem_erase _ _

/-- Deriving the tag set of an already-derived tag list is the
identity. -/
theorem dataLevelTagSet_derived_idem (tags : List String) :
    dataLevelTagSet DataLevel.derived
        (setToList (dataLevelTagSet DataLevel.derived tags)) =
      dataLevelTagSet DataLevel.derived tags := by
  rw [dataLevelTagSet_derived_eq (setToList (dataLevelTagSet DataLevel.derived tags))]
  rw [show (setToList (dataLevelTagSet DataLevel.derived tags)).toFinset =
      dataLevelTagSet DataLevel.derived tags from Finset.sort_toFinset _ _]
  rw [Finset.union_eq_left.mpr
    (Finset.singleton_subset_iff.mpr (mem_derived_dataLevelTagSet tags))]
  exact Finset.erase_eq_of_not_mem (not_mem_raw_dataLevelTagSet tags)

/-- C9: applying the derived-data classification (add the derived tag,
discard the raw tag, record the "data level" metadata entry) twice
yields exactly the same tags and metadata as applying it once; the
resulting tag list is duplicate-free, contains the derived tag and
never contains the raw tag. -/
theorem claim9_derived_classification_idempotent (tags : List String)
    (md : List (String × String)) :
    add_data_level_metadata DataLevel.derived
        (add_data_level_metadata DataLevel.derived tags md).1
        (add_data_level_metadata DataLevel.derived tags md).2 =
      add_data_level_metadata DataLevel.derived tags md ∧
    (add_data_level_metadata DataLevel.derived tags md).1.Nodup ∧
    "derived" ∈ (add_data_level_metadata DataLevel.derived tags md).1 ∧
    "raw" ∉ (add_data_level_metadata DataLevel.derived tags md).1 := by
  refine ⟨?_, ?_, ?_, ?_⟩
  · simp only [add_data_level_metadata]
    rw [dataLevelTagSet_derived_idem tags, dictUpdate_idem]
  · simp only [add_data_level_metadata, setToList]
    exact Finset.sort_nodup _ _
  · simp only [add_data_level_metadata, setToList, Finset.mem_sort]
    exact mem_derived_dataLevelTagSet tags
  · simp only [add_data_level_metadata, setToList, Finset.mem_sort]
    exact not_mem_raw_dataLevelTagSet tags

/-- The name `run_capsule_config` is not bound in the scope of
`process_data`, so looking it up raises `NameError`. -/
theorem run_capsule_config_unbound :
    V2.pyLookupName V2.processDataScopeNames "run_capsule_config" =
      Except.error (PyErr.nameError "run_capsule_config") := rfl

/-- C10: in the V2 computation poll loop, any poll that observes a state
other than "completed" makes the evaluation of the loop-exit condition
raise NameError for the unbound name `run_capsule_config`, whatever the
configured interval and timeout; the loop exits normally exactly when
the observed state is "completed", so the timeout branch of the exit
condition is unreachable. -/
theorem claim10_poll_exit_name_error (getComp : Nat → Response) (poll : Nat)
    (timeout : Option Nat) (fuel num : Nat) (hfuel : 0 < fuel) :
    (∀ s, (getComp (num + 1)).body.state = some s → s ≠ "completed" →
      V2.processLoopV2 getComp poll timeout fuel num =
        (Except.error (PyErr.nameError "run_capsule_config"), 1)) ∧
    ((getComp (num + 1)).body.state = some "completed" →
      V2.processLoopV2 getComp poll timeout fuel num =
        (Except.ok (num + 1, getComp (num + 1)), 1)) := by
  obtain ⟨f, rfl⟩ : ∃ f, fuel = f + 1 :=
    ⟨fuel - 1, (Nat.succ_pred_eq_of_pos hfuel).symm⟩
  constructor
  · intro s hs hne
    simp only [V2.processLoopV2]
    rw [hs]
    simp [V2.loopExitCond, hne, run_capsule_config_unbound]
  · intro hs
    simp only [V2.processLoopV2]
    rw [hs]
    simp [V2.loopExitCond]

/-- Witness for C10 at concrete inputs: a "running" poll raises the
NameError even with a timeout configured, a "completed" first poll exits
normally. -/
theorem claim10_witness :
    V2.processLoopV2 (fun _ => compRunning) 300 (some 10000) 1 0 =
      (Except.error (PyErr.nameError "run_capsule_config"), 1) ∧
    V2.processLoopV2 (fun _ => compCompleted) 300 (some 10000) 1 0 =
      (Except.ok (1, compCompleted), 1) :=
  ⟨(claim10_poll_exit_name_error (fun _ => compRunning) 300 (some 10000) 1 0
      (by decide)).1 "running" rfl (by decide),
   (claim10_poll_exit_name_error (fun _ => compCompleted) 300 (some 10000) 1 0
      (by decide)).2 rfl⟩


/-- The V1 poll loop stops at the first check index N whose observed
state satisfies the exit condition, having performed one sleep of the
configured interval and one check per index in sleep-then-check order,
and yields the N-th response. -/
theorem pollLoop_exits_at (getComp : Nat → Response) (I : Nat) (tmo : Option Nat)
    (N : Nat) (sN : String)
    (hsN : (getComp N).body.state = some sN) (hex : pollExit sN I N tmo = true) :
    ∀ fuel num, num < N → N - num ≤ fuel →
    (∀ k, num < k → k < N →
      ∃ s, (getComp k).body.state = some s ∧ pollExit s I k tmo = false) →
    pollLoop getComp I tmo fuel num =
      (Except.ok (N, getComp N),
        (List.range' (num + 1) (N - num)).flatMap fun i => [Ev.sleep I, Ev.check i]) := by
  intro fuel
  induction fuel with
  | zero =>
    intro num h1 h2 _
    omega
  | succ f ih =>
    intro num h1 h2 hbefore
    simp only [pollLoop]
    by_cases hn : num + 1 = N
    · rw [hn, hsN]
      have hd : N - num = 1 := by omega
      rw [hd]
      simp [hex, List.range'_one]
    · have hlt : num + 1 < N := by omega
      obtain ⟨s, hs, hexk⟩ := hbefore (num + 1) (by omega) hlt
      rw [hs]
      have hrec := ih (num + 1) hlt (by omega)
        (fun k hk1 hk2 => hbefore k (by omega) hk2)
      simp only [hexk, Bool.false_eq_true, if_false, hrec]
      have hd : N - num = (N - (num + 1)) + 1 := by omega
      rw [hd, List.range'_succ]
      simp [List.flatMap_cons]

/-- C2: with no timeout set, a check sequence whose N-th check is the
first to report "completed" makes the poll loop perform exactly N
sleeps of the configured interval and N checks, alternating
sleep-then-check (so the mandatory sleep precedes the very first check
even when that check already reports done), and return the N-th
response. -/
theorem claim2_poll_no_timeout_first_done (getComp : Nat → Response)
    (I N fuel : Nat) (hN : 1 ≤ N) (hfuel : N ≤ fuel)
    (hbefore : ∀ k, 1 ≤ k → k < N →
      ∃ s, (getComp k).body.state = some s ∧ s ≠ "completed")
    (hdone : (getComp N).body.state = some "completed") :
    pollLoop getComp I none fuel 0 =
      (Except.ok (N, getComp N),
        (List.range' 1 N).flatMap fun i => [Ev.sleep I, Ev.check i]) := by
  have h := pollLoop_exits_at getComp I none N "completed" hdone
    (by simp [pollExit]) fuel 0 (by omega) (by omega)
    (fun k hk1 hk2 => by
      obtain ⟨s, hs, hne⟩ := hbefore k (by omega) hk2
      exact ⟨s, hs, by simp [pollExit, hne]⟩)
  simpa using h

/-- Witness for C2: the state is "running" on the first check and
"completed" on the second, so the loop sleeps twice, checks twice in
alternation, and returns the second response. -/
theorem claim2_witness :
    pollLoop pollsCompletedAt2 400 none 2 0 =
      (Except.ok (2, compCompleted),
        [Ev.sleep 400, Ev.check 1, Ev.sleep 400, Ev.check 2]) := by
  have h := claim2_poll_no_timeout_first_done pollsCompletedAt2 400 2 2
    (by decide) (by decide)
    (fun k hk1 hk2 => by
      have hk : k = 1 := by omega
      subst hk
      exact ⟨"running", rfl, by decide⟩)
    rfl
  simpa using h


/-- When no check ever returns 200 and the interval is positive, the
wait loop runs until `pause_interval * num_of_checks` strictly exceeds
the timeout: it stops at `num_of_checks = timeout / interval + 1` with
the response of that check. -/
theorem waitLoopAux_never_done (get : Nat → Response) (T I : Nat) (hI : 0 < I)
    (hnever : ∀ k, (get k).status_code ≠ 200) :
    ∀ fuel num resp, I * num ≤ T → (T / I + 1) - num ≤ fuel →
    waitLoopAux get T I fuel num resp = (T / I + 1, get (T / I + 1)) := by
  intro fuel
  induction fuel with
  | zero =>
    intro num resp h1 h2
    exfalso
    have h3 : num ≤ T / I :=
      (Nat.le_div_iff_mul_le hI).mpr (by rw [Nat.mul_comm]; omega)
    omega
  | succ f ih =>
    intro num resp h1 h2
    simp only [waitLoopAux]
    by_cases he : I * (num + 1) > T
    · have h3 : num ≤ T / I :=
        (Nat.le_div_iff_mul_le hI).mpr (by rw [Nat.mul_comm]; omega)
      have h4 : ¬ (num + 1 ≤ T / I) := fun hc => by
        have hc2 := (Nat.le_div_iff_mul_le hI).mp hc
        rw [Nat.mul_comm] at hc2
        omega
      have hnum : num = T / I := by omega
      rw [if_pos (Or.inl he), hnum]
    · push_neg at he
      have h3 : num + 1 ≤ T / I :=
        (Nat.le_div_iff_mul_le hI).mpr (by rw [Nat.mul_comm]; omega)
      rw [if_neg ?_]
      · exact ih (num + 1) (get (num + 1)) (by omega) (by omega)
      · rintro (h | h)
        · omega
        · exact hnever (num + 1) h

/-- C3 (amended): when no check ever returns 200 and the interval I is
positive, `wait_for_data_availability` with timeout T returns with
final `num_of_checks = T / I + 1` — that is, it performs
`T / I + 2` checks in total (the initial check plus `T / I + 1` loop
checks, the loop stopping once I times the post-initial check count
strictly exceeds T) — and returns the last-observed response; by
construction it raises nothing. -/
theorem claim3_wait_timeout_checks (get : Nat → Response) (T I : Nat)
    (hI : 0 < I) (hnever : ∀ k, (get k).status_code ≠ 200) :
    wait_for_data_availability get T I = (T / I + 1, get (T / I + 1)) := by
  simp only [wait_for_data_availability]
  rw [if_neg ?_]
  · exact waitLoopAux_never_done get T I hI hnever (T + 2) 0 (get 0) (by omega)
      (by have := Nat.div_le_self T I; omega)
  · rintro (h | h)
    · omega
    · exact hnever 0 h

/-- Counterexample to C3 as stated: with the default interval 10 and
timeout 300 and a check that never succeeds, the polling performs 32
checks in total (the repository's own test for this function asserts 32
sleeps), strictly more than ceil(300/10) = 30. -/
theorem claim3_counterexample :
    (wait_for_data_availability (fun _ => resp500) 300 10).1 + 1 = 32 ∧
    (300 : Nat) / 10 = 30 ∧ ¬ (32 ≤ 30) := by
  refine ⟨?_, by norm_num, by norm_num⟩
  decide

/-- Witness for the amended C3 at the default configuration: the final
`num_of_checks` is 300 / 10 + 1 = 31 (32 checks in total) and the
500-response of the last check is returned. -/
theorem claim3_witness :
    wait_for_data_availability (fun _ => resp500) 300 10 = (31, resp500) := by
  have h := claim3_wait_timeout_checks (fun _ => resp500) 300 10
    (by norm_num) (by
      intro k
      show resp500.status_code ≠ 200
      decide)
  simpa using h


/-- The `get_computation` calls of an alternating sleep/check trace: one
per check. -/
theorem checkCalls_pattern (cid : String) (I : Nat) :
    ∀ n a, V1.checkCalls cid ((List.range' a n).flatMap fun i => [Ev.sleep I, Ev.check i]) =
      List.replicate n (ApiCall.getComputation cid) := by
  intro n
  induction n with
  | zero => intro a; rfl
  | succ m ih =>
    intro a
    rw [List.range'_succ, List.flatMap_cons]
    simp only [V1.checkCalls] at ih ⊢
    rw [List.filter_append, List.map_append, ih (a + 1)]
    rw [show ([Ev.sleep I, Ev.check a].filter
      (fun e => match e with | Ev.check _ => true | _ => false)) = [Ev.check a] from rfl]
    simp [List.replicate_succ]

/-- The V1 existence check passes (no "not found" message) and issues
one `get_data_asset` call per referenced asset. -/
theorem checkAssetsLoop_none (getAsset : String → Response) :
    ∀ l : List (String × String), (∀ q ∈ l, (getAsset q.1).body.message = none) →
    V1.checkAssetsLoop getAsset l =
      (Except.ok (), l.map fun q => ApiCall.getDataAsset q.1) := by
  intro l
  induction l with
  | nil => intro _; rfl
  | cons q rest ih =>
    intro h
    simp only [V1.checkAssetsLoop, Tr.call, Tr.bind_ok]
    rw [h q (by simp)]
    rw [ih (fun x hx => h x (by simp [hx]))]
    rfl

/-- C4 (amended): for a blocking run (`pause_interval` truthy) whose
existence check passes, the poll loop exits exactly at the first check
index N whose observed state is "completed" or, when a timeout is set,
whose interval × N reaches the timeout; but the value `run_capsule`
returns to the caller is the run-submission response — the last poll's
response is discarded, so on a "completed" second poll the caller still
receives the submission response. -/
theorem claim4_blocking_run_exit_and_return
    (getAsset : String → Response) (runResp : RunCapsuleRequest → Response)
    (getComp : Nat → Response) (cap pip : Option String)
    (l : List (String × String)) (params : Option (List String))
    (p : Nat) (ver tmo : Option Nat) (fuel N : Nat) (cid sN : String)
    (hp : p ≠ 0) (hN : 1 ≤ N) (hfuel : N ≤ fuel)
    (hmsg : ∀ q ∈ l, (getAsset q.1).body.message = none)
    (hid : (runResp (V1.runRequest cap pip (some l) params ver)).body.id = some cid)
    (hsN : (getComp N).body.state = some sN)
    (hex : pollExit sN p N tmo = true)
    (hbef : ∀ k, 1 ≤ k → k < N →
      ∃ s, (getComp k).body.state = some s ∧ pollExit s p k tmo = false) :
    V1.run_capsule getAsset runResp getComp cap pip (some l) params (some p) ver tmo fuel =
      (Except.ok (runResp (V1.runRequest cap pip (some l) params ver)),
        (l.map fun q => ApiCall.getDataAsset q.1)
          ++ [ApiCall.runCapsule (V1.runRequest cap pip (some l) params ver)]
          ++ List.replicate N (ApiCall.getComputation cid)) := by
  have hpoll := pollLoop_exits_at getComp p tmo N sN hsN hex fuel 0 (by omega) (by omega)
    (fun k hk1 hk2 => hbef k (by omega) hk2)
  simp only [V1.run_capsule]
  rw [checkAssetsLoop_none getAsset l hmsg]
  simp [Tr.bind_ok, Tr.call, Tr.emit, Tr.pure, Tr.bind, hid, hp, hpoll,
    checkCalls_pattern, List.append_assoc]

/-- Counterexample to C4 as stated: the computation reaches "completed"
on the second poll, yet `run_capsule` returns the submission response,
whose state is "initializing", not the poll response whose state is
"completed" (the repository's own test asserts this return value). -/
theorem claim4_counterexample :
    V1.run_capsule (fun _ => respAsset) (fun _ => subResp) pollsCompletedAt2
        (some "123-abc") none none none (some 400) none none 2 =
      (Except.ok subResp,
        [ApiCall.runCapsule (V1.runRequest (some "123-abc") none none none none),
         ApiCall.getComputation "comp-abc-123", ApiCall.getComputation "comp-abc-123"]) ∧
    subResp.body.state = some "initializing" ∧
    (pollsCompletedAt2 2).body.state = some "completed" ∧
    subResp ≠ pollsCompletedAt2 2 := by
  refine ⟨rfl, rfl, rfl, ?_⟩
  intro h
  exact absurd (congrArg (fun r => r.body.state) h) (by decide)

/-- Witness for the amended C4: empty asset list, poll interval 400, no
timeout, "completed" on the second poll; the loop makes exactly two
checks and the submission response is returned. -/
theorem claim4_witness :
    V1.run_capsule (fun _ => respAsset) (fun _ => subResp) pollsCompletedAt2
        (some "123-abc") none (some []) none (some 400) none none 2 =
      (Except.ok subResp,
        [ApiCall.runCapsule (V1.runRequest (some "123-abc") none (some []) none none),
         ApiCall.getComputation "comp-abc-123", ApiCall.getComputation "comp-abc-123"]) := by
  have h := claim4_blocking_run_exit_and_return (fun _ => respAsset) (fun _ => subResp)
    pollsCompletedAt2 (some "123-abc") none [] none 400 none none 2 2 "comp-abc-123" "completed"
    (by decide) (by decide) (by decide) (by simp) rfl rfl (by decide)
    (fun k hk1 hk2 => by
      have hk : k = 1 := by omega
      subst hk
      exact ⟨"running", rfl, by decide⟩)
  simpa using h


/-- The V2 existence check walks the asset list in order; once it meets
the first asset whose fetch is abnormal it raises: `FileNotFoundError`
on 404, `ConnectionError` on any other non-200, in both cases naming
the asset id and having issued exactly one `get_data_asset` call per
asset seen so far. -/
theorem check_data_assets_fails_at (j : V2.CodeOceanJob) (a : ComputationDataAsset)
    (l2 : List ComputationDataAsset) :
    ∀ l1, (∀ x ∈ l1, (j.co_client.get_data_asset x.id).status_code = 200) →
    ((j.co_client.get_data_asset a.id).status_code = 404 →
      V2.check_data_assets j (l1 ++ a :: l2) =
        (Except.error (PyErr.fileNotFoundError ("Unable to find: " ++ a.id)),
         (l1.map fun x => ApiCall.getDataAsset x.id) ++ [ApiCall.getDataAsset a.id])) ∧
    ((j.co_client.get_data_asset a.id).status_code ≠ 200 →
     (j.co_client.get_data_asset a.id).status_code ≠ 404 →
      V2.check_data_assets j (l1 ++ a :: l2) =
        (Except.error (PyErr.connectionError ("There was an issue retrieving: " ++ a.id)),
         (l1.map fun x => ApiCall.getDataAsset x.id) ++ [ApiCall.getDataAsset a.id])) := by
  intro l1
  induction l1 with
  | nil =>
    intro _
    constructor
    · intro h404
      simp only [List.nil_append, V2.check_data_assets, Tr.call, Tr.bind_ok]
      rw [if_pos h404]
      rfl
    · intro hne200 hne404
      simp only [List.nil_append, V2.check_data_assets, Tr.call, Tr.bind_ok]
      rw [if_neg hne404, if_pos hne200]
      rfl
  | cons x rest ih =>
    intro hok
    have hx : (j.co_client.get_data_asset x.id).status_code = 200 := hok x (by simp)
    have hrest := ih (fun y hy => hok y (by simp [hy]))
    constructor
    · intro h404
      simp only [List.cons_append, V2.check_data_assets, Tr.call, Tr.bind_ok]
      rw [if_neg (by omega), if_neg (by simp [hx])]
      simp only [List.append_eq]
      rw [hrest.1 h404]
      rfl
    · intro hne200 hne404
      simp only [List.cons_append, V2.check_data_assets, Tr.call, Tr.bind_ok]
      rw [if_neg (by omega), if_neg (by simp [hx])]
      simp only [List.append_eq]
      rw [hrest.2 hne200 hne404]
      rfl

/-- C5 (amended): in the V2 orchestrator, a run configuration
referencing an asset whose existence fetch answers 404 (after any
successfully fetched assets) fails with `FileNotFoundError` naming
that asset id before the run request is submitted — the call trace
holds only `get_data_asset` calls, never `run_capsule` or
`get_computation` — and a first abnormal fetch with any other non-200
status fails with `ConnectionError` naming the id.  The V1
`run_capsule` keys its check on a "not found" message and submits the
run on other non-200 fetches (see the counterexample). -/
theorem claim5_missing_asset_fails_before_run
    (j : V2.CodeOceanJob) (pc : RunCapsuleRequest)
    (l1 l2 : List ComputationDataAsset) (a : ComputationDataAsset) (fuel : Nat)
    (hpc : j.process_config = some pc)
    (hsplit : pc.data_assets.getD [] = l1 ++ a :: l2)
    (hok : ∀ x ∈ l1, (j.co_client.get_data_asset x.id).status_code = 200) :
    ((j.co_client.get_data_asset a.id).status_code = 404 →
      V2.process_data j none fuel =
        (Except.error (PyErr.fileNotFoundError ("Unable to find: " ++ a.id)),
         (l1.map fun x => ApiCall.getDataAsset x.id) ++ [ApiCall.getDataAsset a.id]) ∧
      ∀ e ∈ (V2.process_data j none fuel).2, ∃ i, e = ApiCall.getDataAsset i) ∧
    ((j.co_client.get_data_asset a.id).status_code ≠ 200 →
     (j.co_client.get_data_asset a.id).status_code ≠ 404 →
      V2.process_data j none fuel =
        (Except.error (PyErr.connectionError ("There was an issue retrieving: " ++ a.id)),
         (l1.map fun x => ApiCall.getDataAsset x.id) ++ [ApiCall.getDataAsset a.id])) := by
  have hchk := check_data_assets_fails_at j a l2 l1 hok
  constructor
  · intro h404
    have heq : V2.process_data j none fuel =
        (Except.error (PyErr.fileNotFoundError ("Unable to find: " ++ a.id)),
         (l1.map fun x => ApiCall.getDataAsset x.id) ++ [ApiCall.getDataAsset a.id]) := by
      simp only [V2.process_data, hpc, Tr.pure, Tr.bind_ok]
      rw [hsplit, hchk.1 h404]
      rfl
    refine ⟨heq, ?_⟩
    rw [heq]
    intro e he
    rcases List.mem_append.mp he with h | h
    · obtain ⟨x, _, rfl⟩ := List.mem_map.mp h
      exact ⟨x.id, rfl⟩
    · simp only [List.mem_singleton] at h
      exact ⟨a.id, h⟩
  · intro hne200 hne404
    simp only [V2.process_data, hpc, Tr.pure, Tr.bind_ok]
    rw [hsplit, hchk.2 hne200 hne404]
    rfl

/-- Counterexample to C5 as stated: in the V1 `run_capsule`, an
existence fetch answering 500 with no "not found" message raises
nothing — the run request is submitted anyway, so a non-200
existence-fetch response does not fail with a retrieval error. -/
theorem claim5_counterexample :
    V1.run_capsule (fun _ => resp500) (fun _ => subResp) pollsCompletedAt2
        (some "123-abc") none (some [("999888", "some_mount")]) none none none none 0 =
      (Except.ok subResp,
        [ApiCall.getDataAsset "999888", ApiCall.runCapsule c5req]) ∧
    resp500.status_code = 500 := ⟨rfl, rfl⟩

/-- Witness for the amended C5: a job referencing the missing asset
fails with `FileNotFoundError` naming it after one fetch, a job
referencing the asset with a 500 fetch fails with `ConnectionError`
naming it. -/
theorem claim5_witness :
    V2.process_data jMissing none 1 =
      (Except.error (PyErr.fileNotFoundError "Unable to find: missing"),
        [ApiCall.getDataAsset "missing"]) ∧
    V2.process_data jBad none 1 =
      (Except.error (PyErr.connectionError "There was an issue retrieving: bad"),
        [ApiCall.getDataAsset "bad"]) := by
  constructor
  · have h := (claim5_missing_asset_fails_before_run jMissing pcMissing [] []
      { id := "missing" } 1 rfl rfl (by simp)).1 rfl
    simpa using h.1
  · have h := (claim5_missing_asset_fails_before_run jBad pcBad [] []
      { id := "bad" } 1 rfl rfl (by simp)).2 (by decide) (by decide)
    simpa using h


/-- C6 (amended): in the V2 orchestrator, a registration request whose
source is AWS-backed with `keep_on_external_storage` false fails with
the AssertionError before any remote call — the call trace is empty.
The V1 `register_data_and_update_permissions` performs no such check
and submits the create request (see the counterexample). -/
theorem claim6_keep_on_external_storage_assert
    (j : V2.CodeOceanJob) (request : CreateDataAssetRequest) (src : Source)
    (a : SourcesAWS) (hsrc : request.source = some src) (haws : src.aws = some a)
    (hkeep : a.keep_on_external_storage = false) :
    V2.create_data_asset_and_update_permissions j request =
      (Except.error (PyErr.assertionError "AWS data assets must be kept on external storage."),
       []) := by
  simp only [V2.create_data_asset_and_update_permissions, hsrc, haws, hkeep]
  rfl

/-- Counterexample to C6 as stated: the V1
`register_data_and_update_permissions` with an AWS source and
`keep_on_external_storage=false` raises nothing and issues the create
network call. -/
theorem claim6_counterexample :
    V1.register_data_and_update_permissions okClient "x" "m" "bkt" "some-path"
        false false [] [] false =
      (Except.ok respAsset, [ApiCall.createDataAsset keepFalseReq]) := rfl

/-- Witness for the amended C6 at a concrete request with
`keep_on_external_storage=false`. -/
theorem claim6_witness :
    V2.create_data_asset_and_update_permissions jPlain keepFalseReq =
      (Except.error (PyErr.assertionError "AWS data assets must be kept on external storage."),
       []) :=
  claim6_keep_on_external_storage_assert jPlain keepFalseReq
    { aws := some awsKeepFalse } awsKeepFalse rfl rfl rfl

/-- C7 (amended): in the V2 orchestrator, when the create-data-asset
response lacks an id, registration fails with a KeyError whose message
carries the asset name, the remote status code and the response body,
after exactly the one create call — the job does not proceed.  The V1
`register_data_and_update_permissions` performs no such check and, with
`viewable_to_everyone` false, returns the id-less response as if the
creation had succeeded (see the counterexample). -/
theorem claim7_missing_id_registration_error
    (j : V2.CodeOceanJob) (request : CreateDataAssetRequest) (src : Source)
    (hsrc : request.source = some src)
    (hkeep : ∀ a, src.aws = some a → a.keep_on_external_storage = true)
    (hid : (j.co_client.create_data_asset request).body.id = none) :
    V2.create_data_asset_and_update_permissions j request =
      (Except.error (PyErr.keyError (V2.registrationErrMsg request.name
          (j.co_client.create_data_asset request).status_code
          (j.co_client.create_data_asset request).body)),
       [ApiCall.createDataAsset request]) := by
  simp only [V2.create_data_asset_and_update_permissions, hsrc]
  cases haws : src.aws with
  | none =>
    simp only [Tr.pure, Tr.bind, Tr.call, hid]
    rfl
  | some a =>
    have hk := hkeep a haws
    simp only [hk, if_true, Tr.pure, Tr.bind, Tr.call, hid]
    rfl

/-- Counterexample to C7 as stated: the V1
`register_data_and_update_permissions` (with `viewable_to_everyone`
false) returns an id-less create response without raising. -/
theorem claim7_counterexample :
    V1.register_data_and_update_permissions noIdClient "ecephys_123" "ecephys" "bkt" "some-path"
        false true [] [] false =
      (Except.ok resp500, [ApiCall.createDataAsset wRegisterConfig]) ∧
    resp500.body.id = none := ⟨rfl, rfl⟩

/-- Witness for the amended C7: an id-less 500 create response makes
V2 registration fail with the KeyError carrying the name, the code 500
and the empty body. -/
theorem claim7_witness :
    V2.create_data_asset_and_update_permissions jNoId wRegisterConfig =
      (Except.error (PyErr.keyError (V2.registrationErrMsg (some "ecephys_123") 500 {})),
       [ApiCall.createDataAsset wRegisterConfig]) := by
  have h := claim7_missing_id_registration_error jNoId wRegisterConfig
    { aws := some awsKeepTrue }
    rfl (fun a ha => (Option.some.inj ha) ▸ rfl) rfl
  simpa using h


/-- Function `applyDataLevel` never touches the request's source. -/
theorem applyDataLevel_source (b : Bool) (lv : DataLevel) (r : CreateDataAssetRequest) :
    (V2.applyDataLevel b lv r).source = r.source := by
  cases b <;> rfl

/-- The V2 poll loop exits normally after one check when the first poll
reports "completed". -/
theorem processLoopV2_completed (g : Nat → Response) (p : Nat) (tmo : Option Nat)
    (fuel num : Nat) (hfuel : 0 < fuel)
    (h : (g (num + 1)).body.state = some "completed") :
    V2.processLoopV2 g p tmo fuel num = (Except.ok (num + 1, g (num + 1)), 1) := by
  obtain ⟨f, rfl⟩ : ∃ f, fuel = f + 1 :=
    ⟨fuel - 1, (Nat.succ_pred_eq_of_pos hfuel).symm⟩
  simp only [V2.processLoopV2]
  rw [h]
  simp [V2.loopExitCond]

/-- The happy path of the V2 creation primitive: assertion passes, the
response has an id, availability is immediate, permissions update is
issued, and the creation response is returned. -/
theorem create_data_asset_ok (j : V2.CodeOceanJob) (req : CreateDataAssetRequest)
    (src : Source) (rid : String)
    (hsrc : req.source = some src)
    (hkeep : ∀ a, src.aws = some a → a.keep_on_external_storage = true)
    (hview : j.assets_viewable_to_everyone = true)
    (hid : (j.co_client.create_data_asset req).body.id = some rid)
    (hget : (j.co_client.get_data_asset rid).status_code = 200) :
    V2.create_data_asset_and_update_permissions j req =
      (Except.ok (j.co_client.create_data_asset req),
       [ApiCall.createDataAsset req, ApiCall.getDataAsset rid,
        ApiCall.updatePermissions rid "viewer"]) := by
  have hw : wait_for_data_availability (fun _ => j.co_client.get_data_asset rid) 300 10 =
      (0, j.co_client.get_data_asset rid) := by
    simp only [wait_for_data_availability]
    rw [if_pos (Or.inr hget)]
  simp only [V2.create_data_asset_and_update_permissions, hsrc]
  cases haws : src.aws with
  | none =>
    simp only [Tr.pure, Tr.bind, Tr.call, hid, hview, if_true, hw]
    simp [hget, Tr.emit]
  | some a =>
    have hk := hkeep a haws
    simp only [hk, if_true, Tr.pure, Tr.bind, Tr.call, hid, hview, hw]
    simp [hget, Tr.emit]

/-- The V2 existence check passes on all-200 fetches and issues one
`get_data_asset` call per asset. -/
theorem check_data_assets_all_ok (j : V2.CodeOceanJob) :
    ∀ l, (∀ x ∈ l, (j.co_client.get_data_asset x.id).status_code = 200) →
    V2.check_data_assets j l =
      (Except.ok (), l.map fun x => ApiCall.getDataAsset x.id) := by
  intro l
  induction l with
  | nil => intro _; rfl
  | cons x rest ih =>
    intro h
    have hx := h x (by simp)
    simp only [V2.check_data_assets, Tr.call, Tr.bind_ok]
    rw [if_neg (by omega), if_neg (by simp [hx])]
    rw [ih (fun y hy => h y (by simp [hy]))]
    rfl


/-- The happy path of `process_data`: the registered asset is appended
to the configured assets, the existence check passes, the run response
carries a computation id, and (when the poll interval is truthy) the
first poll reports "completed"; the run-submission response is
returned. -/
theorem process_data_ok (j : V2.CodeOceanJob) (pc : RunCapsuleRequest) (r1 : Response)
    (rid cid : String) (rc : CreateDataAssetRequest) (fuel : Nat)
    (hpc : j.process_config = some pc)
    (hrc : j.register_data_config = some rc)
    (hr1 : r1.body.id = some rid)
    (hget : ∀ i, (j.co_client.get_data_asset i).status_code = 200)
    (hr2 : (j.co_client.run_capsule (V2.augmentedRunRequest pc rid rc.mount)).body.id = some cid)
    (hcomp : (j.co_client.get_computation cid).body.state = some "completed")
    (hfuel : 0 < fuel) :
    V2.process_data j (some r1) fuel =
      (Except.ok (j.co_client.run_capsule (V2.augmentedRunRequest pc rid rc.mount)),
       ((pc.data_assets.getD [] ++ [ComputationDataAsset.mk rid rc.mount]).map
          fun x => ApiCall.getDataAsset x.id)
         ++ [ApiCall.runCapsule (V2.augmentedRunRequest pc rid rc.mount)]
         ++ (if j.process_poll_interval_seconds ≠ 0 then [ApiCall.getComputation cid]
             else [])) := by
  have hchk := check_data_assets_all_ok j
    (pc.data_assets.getD [] ++ [ComputationDataAsset.mk rid rc.mount]) (fun x _ => hget x.id)
  have hloop := processLoopV2_completed (fun _ => j.co_client.get_computation cid)
    j.process_poll_interval_seconds j.process_timeout_seconds fuel 0 hfuel hcomp
  simp only [V2.process_data, hpc, hrc, hr1, Tr.pure, Tr.bind_ok, hchk]
  simp only [V2.augmentedRunRequest] at hr2 ⊢
  simp only [Tr.call, Tr.bind_ok, hr2]
  by_cases hpoll : j.process_poll_interval_seconds = 0
  · simp [hpoll, Tr.pure, List.append_assoc]
  · simp [hpoll, hloop, Tr.emit, Tr.bind, Tr.pure, List.append_assoc]


/-- The happy path of `capture_result` with a `CaptureResultConfig` and
no explicit input name: the name falls back to the register config's
name, the built capture request goes through the creation primitive and
its response is returned. -/
theorem capture_result_ok (j : V2.CodeOceanJob) (cc : V2.CaptureResultConfig)
    (rc : CreateDataAssetRequest) (r2 : Response) (cid rid3 nm capture_time : String)
    (hcc : j.capture_result_config = some (V2.CaptureConfig.captureResultConfig cc))
    (hin : cc.input_data_asset_name = none)
    (hrc : j.register_data_config = some rc)
    (hname : rc.name = some nm)
    (hr2 : r2.body.id = some cid)
    (hview : j.assets_viewable_to_everyone = true)
    (hid3 : (j.co_client.create_data_asset (V2.captureRequest j.add_data_level_tags
        (build_processed_data_asset_name nm (pyStr cc.process_name) capture_time)
        cid)).body.id = some rid3)
    (hget : (j.co_client.get_data_asset rid3).status_code = 200) :
    V2.capture_result j capture_time (some r2) =
      (Except.ok (j.co_client.create_data_asset (V2.captureRequest j.add_data_level_tags
          (build_processed_data_asset_name nm (pyStr cc.process_name) capture_time) cid)),
       [ApiCall.createDataAsset (V2.captureRequest j.add_data_level_tags
          (build_processed_data_asset_name nm (pyStr cc.process_name) capture_time) cid),
        ApiCall.getDataAsset rid3, ApiCall.updatePermissions rid3 "viewer"]) := by
  have hstep : V2.capture_result j capture_time (some r2) =
      V2.create_data_asset_and_update_permissions j (V2.captureRequest j.add_data_level_tags
        (build_processed_data_asset_name nm (pyStr cc.process_name) capture_time) cid) := by
    simp only [V2.capture_result, hr2, hcc, hin, hrc, hname, Tr.pure, Tr.bind_ok, pyStr]
    rfl
  rw [hstep]
  exact create_data_asset_ok j _ { computation := some { id := cid } } rid3
    (by simp only [V2.captureRequest, applyDataLevel_source]) (fun a ha => by simp at ha)
    hview hid3 hget


/-- C1: with register, run and capture stages all configured and every
remote call succeeding (creations return ids, fetches return 200, the
run returns a computation id, the polled computation reports
"completed"), `run_job` first registers the data asset, appends the
registered asset's id together with the register config's mount to the
run config's data_assets before submitting the run, then runs the
capsule, then captures results against the computation id of the run
stage's response under the fallback name built from the registered
asset's name, and returns the three non-null responses in register,
run, capture order — the call trace shows the same causal order. -/
theorem claim1_run_job_sequence (c : COClient) (rc : CreateDataAssetRequest)
    (pc : RunCapsuleRequest) (cc : V2.CaptureResultConfig) (addTags : Bool)
    (poll : Nat) (tmo : Option Nat) (nm capture_time : String) (fuel : Nat)
    (src : Source) (rid cid rid3 : String)
    (hfuel : 0 < fuel)
    (hname : rc.name = some nm) (hin : cc.input_data_asset_name = none)
    (hsrc : rc.source = some src)
    (hkeep : ∀ a, src.aws = some a → a.keep_on_external_storage = true)
    (hr1 : (c.create_data_asset (V2.applyDataLevel addTags DataLevel.raw rc)).body.id = some rid)
    (hget : ∀ i, (c.get_data_asset i).status_code = 200)
    (hr2 : (c.run_capsule (V2.augmentedRunRequest pc rid rc.mount)).body.id = some cid)
    (hcomp : (c.get_computation cid).body.state = some "completed")
    (hr3 : (c.create_data_asset (V2.captureRequest addTags
        (build_processed_data_asset_name nm (pyStr cc.process_name) capture_time) cid)).body.id
        = some rid3) :
    V2.run_job
      { co_client := c, register_data_config := some rc, process_config := some pc,
        capture_result_config := some (V2.CaptureConfig.captureResultConfig cc),
        assets_viewable_to_everyone := true, process_poll_interval_seconds := poll,
        process_timeout_seconds := tmo, add_data_level_tags := addTags }
      capture_time fuel =
      (Except.ok
        (some (c.create_data_asset (V2.applyDataLevel addTags DataLevel.raw rc)),
         some (c.run_capsule (V2.augmentedRunRequest pc rid rc.mount)),
         some (c.create_data_asset (V2.captureRequest addTags
           (build_processed_data_asset_name nm (pyStr cc.process_name) capture_time) cid))),
       [ApiCall.createDataAsset (V2.applyDataLevel addTags DataLevel.raw rc),
        ApiCall.getDataAsset rid, ApiCall.updatePermissions rid "viewer"]
       ++ ((pc.data_assets.getD [] ++ [ComputationDataAsset.mk rid rc.mount]).map
            fun x => ApiCall.getDataAsset x.id)
       ++ [ApiCall.runCapsule (V2.augmentedRunRequest pc rid rc.mount)]
       ++ (if poll ≠ 0 then [ApiCall.getComputation cid] else [])
       ++ [ApiCall.createDataAsset (V2.captureRequest addTags
             (build_processed_data_asset_name nm (pyStr cc.process_name) capture_time) cid),
           ApiCall.getDataAsset rid3, ApiCall.updatePermissions rid3 "viewer"]) := by
  have hreg := create_data_asset_ok
    { co_client := c, register_data_config := some rc, process_config := some pc,
      capture_result_config := some (V2.CaptureConfig.captureResultConfig cc),
      assets_viewable_to_everyone := true, process_poll_interval_seconds := poll,
      process_timeout_seconds := tmo, add_data_level_tags := addTags }
    (V2.applyDataLevel addTags DataLevel.raw rc) src rid
    (by rw [applyDataLevel_source]; exact hsrc) hkeep rfl hr1 (hget rid)
  have hproc := process_data_ok
    { co_client := c, register_data_config := some rc, process_config := some pc,
      capture_result_config := some (V2.CaptureConfig.captureResultConfig cc),
      assets_viewable_to_everyone := true, process_poll_interval_seconds := poll,
      process_timeout_seconds := tmo, add_data_level_tags := addTags }
    pc (c.create_data_asset (V2.applyDataLevel addTags DataLevel.raw rc)) rid cid rc fuel
    rfl rfl hr1 hget hr2 hcomp hfuel
  have hcap := capture_result_ok
    { co_client := c, register_data_config := some rc, process_config := some pc,
      capture_result_config := some (V2.CaptureConfig.captureResultConfig cc),
      assets_viewable_to_everyone := true, process_poll_interval_seconds := poll,
      process_timeout_seconds := tmo, add_data_level_tags := addTags }
    cc rc (c.run_capsule (V2.augmentedRunRequest pc rid rc.mount)) cid rid3 nm capture_time
    rfl hin rfl hname hr2 rfl hr3 (hget rid3)
  simp only [V2.run_job, V2.register_data]
  rw [if_neg (by simp)]
  simp only [Option.isSome_some, if_true, hreg, hproc, hcap, Tr.bind_ok, Tr.pure]
  simp [List.append_assoc]


/-- Witness for C1: a fully configured job against the all-succeeding
client registers, runs and captures, returning the three responses and
issuing the calls in causal order. -/
theorem claim1_witness :
    V2.run_job wJob "20240101_000000" 1 =
      (Except.ok (some respAsset, some subResp,
        some { status_code := 200, body := { id := some "res-456" } }),
       [ApiCall.createDataAsset (V2.applyDataLevel true DataLevel.raw wRegisterConfig),
        ApiCall.getDataAsset "abc-123", ApiCall.updatePermissions "abc-123" "viewer",
        ApiCall.getDataAsset "abc-123",
        ApiCall.runCapsule (V2.augmentedRunRequest wRunConfig "abc-123" (some "ecephys")),
        ApiCall.getComputation "comp-abc-123",
        ApiCall.createDataAsset (V2.captureRequest true
          "ecephys_123_processed_20240101_000000" "comp-abc-123"),
        ApiCall.getDataAsset "res-456", ApiCall.updatePermissions "res-456" "viewer"]) := by
  have h := claim1_run_job_sequence okClient wRegisterConfig wRunConfig {} true 300 none
    "ecephys_123" "20240101_000000" 1 { aws := some awsKeepTrue } "abc-123" "comp-abc-123"
    "res-456" (by decide) rfl rfl rfl (fun a ha => (Option.some.inj ha) ▸ rfl)
    rfl (fun _ => rfl) rfl rfl rfl
  exact h


/-- C8 (code bug): `capture_result` resolves the fallback name
`{input}_{process}_{timestamp}` from the register config's name, uses
the resolved name for both the asset name and the mount, and raises
ValueError (the spec's ConfigurationError) when neither an input name
nor a register config is available; but the explicit-name path — a
capture config given as a full `CreateDataAssetRequest` — raises
NameError, because line 194 of `codeocean_job_v2.py` reads the unbound
name `capture_result_config` instead of `self.capture_result_config`,
so an explicit asset name is never used. -/
theorem claim8_capture_name_resolution :
    V2.capture_result j8Explicit "20240101_000000" (some subResp) =
      (Except.error (PyErr.nameError "capture_result_config"), []) ∧
    V2.capture_result wJob "20240101_000000" (some subResp) =
      (Except.ok { status_code := 200, body := { id := some "res-456" } },
        [ApiCall.createDataAsset (V2.captureRequest true
           "ecephys_123_processed_20240101_000000" "comp-abc-123"),
         ApiCall.getDataAsset "res-456",
         ApiCall.updatePermissions "res-456" "viewer"]) ∧
    (V2.captureRequest true "ecephys_123_processed_20240101_000000" "comp-abc-123").name =
      some "ecephys_123_processed_20240101_000000" ∧
    (V2.captureRequest true "ecephys_123_processed_20240101_000000" "comp-abc-123").mount =
      some "ecephys_123_processed_20240101_000000" ∧
    V2.capture_result j8NoRegister "20240101_000000" (some subResp) =
      (Except.error (PyErr.valueError "could not determine captured asset name"), []) :=
  ⟨rfl, rfl, rfl, rfl, rfl⟩

end AindCO
